import Mathlib

/-!
Shallow embedding of the recurring lesson scheduler of `src/server.js`
(music-school management backend).

Conventions used throughout:

* Calendar dates are integers counting days from a fixed epoch chosen to be a
  Sunday, so `d % 7` (`Int.emod`, always in `[0,7)`) is exactly the JavaScript
  `Date.getDay()` weekday of day `d` (0 = Sunday .. 6 = Saturday), and adding
  `k` days is `d + k` (the handlers only ever add whole days via `setDate`).
  Concrete examples below use Sunday 2023-12-31 as day 0, hence
  2024-01-01 (a Monday) is day 1, 2024-01-08 is day 8, 2024-01-10
  (a Wednesday) is day 10 and 2024-01-14 (a Sunday) is day 14.
* SQL tables are lists of rows kept in insertion order; each table's
  `AUTOINCREMENT` key is modelled by a per-table counter in the state.
* HTTP error responses 404 / 400 / 500 are modelled by `ApiError.notFound`,
  `ApiError.invalidInput` and `ApiError.persistence`.
* Handlers that can leave the database modified even on an error path (such
  as `configurar`) return `DB × Except ApiError α`; in `configurar` a
  possible store-level failure of the weekday `INSERT` (a thrown persistence
  error in the JavaScript) is modelled by the oracle `diaFails` indexed by
  the loop iteration.
-/

namespace MMSys

/-- Status column of `aulas_agendadas`:
`CHECK(status IN ('agendada', 'cancelada', 'realizada', 'reagendada'))`,
default `'agendada'`. -/
inductive Status where
  | agendada
  | realizada
  | cancelada
  | reagendada
deriving DecidableEq, Repr

/-- Error taxonomy of the handlers: HTTP 404, 400 and 500 respectively. -/
inductive ApiError where
  | notFound (msg : String)
  | invalidInput (msg : String)
  | persistence (msg : String)
deriving DecidableEq, Repr

/-- Row of `professores` (the columns the scheduler core reads). -/
structure Professor where
  id : Nat
  nome : String
  especialidade : String
deriving DecidableEq, Repr

/-- Row of `aulas_configuradas`. -/
structure Configurada where
  id : Nat
  instrumento : String
  turno : String
  professor_id : Nat
  data_inicio : Int
deriving DecidableEq, Repr

/-- Row of `aulas_dias_semana`. -/
structure DiaSemana where
  id : Nat
  aula_id : Nat
  dia_semana : Int
deriving DecidableEq, Repr

/-- Row of `aulas_agendadas`. -/
structure Agendada where
  id : Nat
  aula_configurada_id : Nat
  data_aula : Int
  status : Status
  updated_at : Int
deriving DecidableEq, Repr

/-- Row of `aulas_reagendamentos`. -/
structure Reagendamento where
  id : Nat
  aula_agendada_id : Nat
  nova_data : Int
  motivo : Option String
deriving DecidableEq, Repr

/-- Database state: one list per table (rows in insertion order) plus one
auto-increment counter per table. -/
structure DB where
  professores : List Professor
  configuradas : List Configurada
  diasSemana : List DiaSemana
  agendadas : List Agendada
  reagendamentos : List Reagendamento
  nextConfigId : Nat
  nextDiaId : Nat
  nextAgendadaId : Nat
  nextReagId : Nat
deriving DecidableEq, Repr

/-- The JavaScript `semanas || 4`: `undefined` and `0` are falsy, so both
fall back to the 4-week default. -/
def jsOrWeeks (semanas : Option Nat) : Nat :=
  match semanas with
  | none => 4
  | some n => if n = 0 then 4 else n

/-- One candidate date of the generation loops of `configurar` and
`gerarAgendamento`:
`diffDias = (dia - dataAula.getDay() + 7) % 7 + semana * 7` followed by
`dataAula.setDate(dataAula.getDate() + diffDias)`.  For `dia` in `[0,6]`
(guaranteed by the `CHECK(dia_semana BETWEEN 0 AND 6)` constraint and the
upstream validation) the JavaScript `%` coincides with `Int.emod` because
its dividend `dia - getDay + 7` is in `[1,13]`. -/
def candidateDate (dataInicio dia : Int) (semana : Nat) : Int :=
  dataInicio + ((dia - dataInicio % 7 + 7) % 7 + 7 * (semana : Int))

/-- All candidate dates produced by the nested loops
`for semana in [0, semanas) { for dia of dias { ... } }`, in loop order. -/
def candidateDates (dataInicio : Int) (dias : List Int) (semanas : Nat) : List Int :=
  (List.range semanas).flatMap (fun semana =>
    dias.map (fun dia => candidateDate dataInicio dia semana))

/-- `SELECT id FROM aulas_agendadas WHERE aula_configurada_id = ? AND data_aula = ?`
returned a row. -/
def existsAgendamento (db : DB) (aulaId : Nat) (d : Int) : Bool :=
  db.agendadas.any (fun a => a.aula_configurada_id == aulaId && a.data_aula == d)

/-- `INSERT INTO aulas_agendadas (aula_configurada_id, data_aula[, status])`:
appends a fresh row (timestamps default to the call moment `now`). -/
def insertAgendada (db : DB) (aulaId : Nat) (d : Int) (st : Status) (now : Int) : DB :=
  { db with
    agendadas := db.agendadas ++ [⟨db.nextAgendadaId, aulaId, d, st, now⟩],
    nextAgendadaId := db.nextAgendadaId + 1 }

/-- The check-then-insert loop body of `gerarAgendamento` over the candidate
dates, returning the final state and the `agendamentos` list of
`(id, data_aula)` pairs actually inserted, in insertion order. -/
def materializeLoop (aulaId : Nat) (now : Int) :
    DB → List Int → DB × List (Nat × Int)
  | db, [] => (db, [])
  | db, d :: rest =>
    if existsAgendamento db aulaId d then materializeLoop aulaId now db rest
    else
      let newId := db.nextAgendadaId
      let db1 := insertAgendada db aulaId d .agendada now
      let res := materializeLoop aulaId now db1 rest
      (res.1, (newId, d) :: res.2)

/-- `SELECT dia_semana FROM aulas_dias_semana WHERE aula_id = ?`, mapped to
the raw weekday values. -/
def diasOf (db : DB) (aulaId : Nat) : List Int :=
  (db.diasSemana.filter (fun r => r.aula_id == aulaId)).map (fun r => r.dia_semana)

/-- `POST /api/aulas/:id/gerar-agendamento` (`AulasHandlers.gerarAgendamento`):
404 when the configured lesson is missing, 400 when it has no configured
weekdays, otherwise the check-then-insert loop over
`candidateDates data_inicio dias (semanas || 4)`. -/
def gerarAgendamento (db : DB) (id : Nat) (semanas : Option Nat) (now : Int) :
    DB × Except ApiError (List (Nat × Int)) :=
  match db.configuradas.find? (fun ac => ac.id == id) with
  | none => (db, .error (.notFound "Aula não encontrada"))
  | some aula =>
    let dias := diasOf db id
    if dias.isEmpty then
      (db, .error (.invalidInput "Aula não possui dias da semana configurados"))
    else
      let res := materializeLoop id now db (candidateDates aula.data_inicio dias (jsOrWeeks semanas))
      (res.1, .ok res.2)

/-- `PUT /api/agendamentos/:id/cancelar` (`AulasHandlers.cancelarAula`):
404 when the occurrence is missing, otherwise
`UPDATE aulas_agendadas SET status = "cancelada", updated_at = CURRENT_TIMESTAMP WHERE id = ?`.
The `motivo` field of the request body is read but never used. -/
def cancelarAula (db : DB) (id : Nat) (motivo : Option String) (now : Int) :
    DB × Except ApiError String :=
  match db.agendadas.find? (fun a => a.id == id) with
  | none => (db, .error (.notFound "Agendamento não encontrado"))
  | some _ =>
    ({ db with
        agendadas := db.agendadas.map (fun a =>
          if a.id = id then { a with status := .cancelada, updated_at := now } else a) },
     .ok "Aula cancelada com sucesso")

/-- `PUT /api/agendamentos/:id/reagendar` (`AulasHandlers.reagendarAula`):
404 when the occurrence is missing; 400 when `nova_data` is missing or
`new Date(nova_data) <= new Date()`; otherwise insert the reschedule record,
set the source status to `reagendada`, insert the follow-up occurrence at
`nova_data` with status `agendada` and return its id. -/
def reagendarAula (db : DB) (id : Nat) (nova_data : Option Int) (motivo : Option String)
    (now : Int) : DB × Except ApiError Nat :=
  match db.agendadas.find? (fun a => a.id == id) with
  | none => (db, .error (.notFound "Agendamento não encontrado"))
  | some agendamento =>
    match nova_data with
    | none => (db, .error (.invalidInput "Nova data inválida"))
    | some nd =>
      if nd ≤ now then (db, .error (.invalidInput "Nova data inválida"))
      else
        let db1 : DB := { db with
          reagendamentos := db.reagendamentos ++ [⟨db.nextReagId, id, nd, motivo⟩],
          nextReagId := db.nextReagId + 1 }
        let db2 : DB := { db1 with
          agendadas := db1.agendadas.map (fun a =>
            if a.id = id then { a with status := .reagendada, updated_at := now } else a) }
        let newId := db2.nextAgendadaId
        (insertAgendada db2 agendamento.aula_configurada_id nd .agendada now, .ok newId)

/-- `LEFT JOIN aulas_reagendamentos ar ON aa.id = ar.aula_agendada_id`, the
right side: one entry per matching reschedule record, or a single NULL
entry when there is none. -/
def reagOpts (db : DB) (aaId : Nat) : List (Option Reagendamento) :=
  match db.reagendamentos.filter (fun ar => ar.aula_agendada_id == aaId) with
  | [] => [none]
  | ar :: ms => (ar :: ms).map some

/-- `LEFT JOIN aulas_reagendamentos ar ON aa.id = ar.aula_agendada_id`:
one output row per matching reschedule record, or a single row with NULLs
when there is none. -/
def leftJoinReag (db : DB) (aa : Agendada) : List (Agendada × Option Reagendamento) :=
  (reagOpts db aa.id).map (fun o => (aa, o))

/-- WHERE clause of `obterAgendamento`: lesson filter plus the
`BETWEEN ? AND ?` range filter, which is only added when both query
parameters are present. -/
def periodoPred (id : Nat) (data_inicio data_fim : Option Int) (aa : Agendada) : Bool :=
  aa.aula_configurada_id == id &&
    match data_inicio, data_fim with
    | some a, some b => decide (a ≤ aa.data_aula) && decide (aa.data_aula ≤ b)
    | _, _ => true

/-- `ORDER BY aa.data_aula` comparison on joined rows. -/
def dateLe (p q : Agendada × Option Reagendamento) : Prop :=
  p.1.data_aula ≤ q.1.data_aula

instance : DecidableRel dateLe := fun p q => Int.decLe p.1.data_aula q.1.data_aula

instance : IsTotal (Agendada × Option Reagendamento) dateLe :=
  ⟨fun p q => Int.le_total p.1.data_aula q.1.data_aula⟩

instance : IsTrans (Agendada × Option Reagendamento) dateLe :=
  ⟨fun _ _ _ h h' => le_trans h h'⟩

/-- `GET /api/aulas/:id/agendamento` (`AulasHandlers.obterAgendamento`):
404 when the lesson is missing, otherwise the occurrences of the lesson
LEFT JOINed with their reschedule records, optionally range-filtered,
ordered by `data_aula`. -/
def obterAgendamento (db : DB) (id : Nat) (data_inicio data_fim : Option Int) :
    Except ApiError (List (Agendada × Option Reagendamento)) :=
  match db.configuradas.find? (fun ac => ac.id == id) with
  | none => .error (.notFound "Aula não encontrada")
  | some _ =>
    .ok (List.insertionSort dateLe
      ((db.agendadas.flatMap (leftJoinReag db)).filter
        (fun p => periodoPred id data_inicio data_fim p.1)))

/-- Output row of the weekly agenda query: `aa.*` plus the selected columns
of the joined tables. -/
structure AgendaRow where
  agendada : Agendada
  instrumento : String
  turno : String
  professor_nome : String
  professor_especialidade : String
  reag : Option Reagendamento
deriving DecidableEq, Repr

/-- Rank realizing the binary-collation text order of the three valid shift
values: `manhã` < `noite` < `tarde` (first bytes `m` < `n` < `t`). -/
def turnoRank (t : String) : Nat :=
  if t = "manhã" then 0 else if t = "noite" then 1 else if t = "tarde" then 2 else 3

/-- The FROM/JOIN clause of the weekly agenda query: inner joins to
`aulas_configuradas` and `professores`, left join to `aulas_reagendamentos`. -/
def agendaJoin (db : DB) : List AgendaRow :=
  db.agendadas.flatMap (fun aa =>
    (db.configuradas.filter (fun ac => ac.id == aa.aula_configurada_id)).flatMap (fun ac =>
      (db.professores.filter (fun p => p.id == ac.professor_id)).flatMap (fun p =>
        (reagOpts db aa.id).map (fun o =>
          ⟨aa, ac.instrumento, ac.turno, p.nome, p.especialidade, o⟩))))

/-- `ORDER BY aa.data_aula, ac.turno` comparison. -/
def agendaLe (a b : AgendaRow) : Prop :=
  a.agendada.data_aula < b.agendada.data_aula ∨
    (a.agendada.data_aula = b.agendada.data_aula ∧ turnoRank a.turno ≤ turnoRank b.turno)

instance : DecidableRel agendaLe := fun a b => by
  unfold agendaLe; infer_instance

instance : IsTotal AgendaRow agendaLe :=
  ⟨fun a b => by unfold agendaLe; omega⟩

instance : IsTrans AgendaRow agendaLe :=
  ⟨fun a b c h h' => by unfold agendaLe at *; omega⟩

/-- `GET /api/agenda-semanal` (`AulasHandlers.obterAgendaSemanal`): the week
start is the query parameter when present, otherwise the Monday of the
current week (`today - weekday + (weekday == 0 ? -6 : 1)` days); the week
end is start + 6; the rows are the joined occurrences whose `data_aula`
lies in the window, ordered by date then shift.  Returns
`(semana_inicio, semana_fim, agendamentos)`. -/
def obterAgendaSemanal (db : DB) (data_inicio : Option Int) (today : Int) :
    Int × Int × List AgendaRow :=
  let inicioSemana :=
    match data_inicio with
    | some d => d
    | none =>
      let dia := today % 7
      today - dia + (if dia = 0 then -6 else 1)
  let fimSemana := inicioSemana + 6
  (inicioSemana, fimSemana,
    List.insertionSort agendaLe
      ((agendaJoin db).filter (fun r =>
        decide (inicioSemana ≤ r.agendada.data_aula) &&
          decide (r.agendada.data_aula ≤ fimSemana))))

/-- Shift validation of `configurar`: `['manhã', 'tarde', 'noite'].includes(turno)`. -/
def turnoValido (t : String) : Bool :=
  t == "manhã" || t == "tarde" || t == "noite"

/-- `DELETE FROM aulas_configuradas WHERE id = ?` with the schema's
`ON DELETE CASCADE` chain: weekday rows and occurrences of the lesson go
with it, and reschedule records of the deleted occurrences in turn. -/
def deleteConfiguradaCascade (db : DB) (aulaId : Nat) : DB :=
  let deadAg := db.agendadas.filter (fun a => a.aula_configurada_id == aulaId)
  { db with
    configuradas := db.configuradas.filter (fun ac => ac.id != aulaId),
    diasSemana := db.diasSemana.filter (fun r => r.aula_id != aulaId),
    agendadas := db.agendadas.filter (fun a => a.aula_configurada_id != aulaId),
    reagendamentos := db.reagendamentos.filter
      (fun ar => !(deadAg.any (fun a => a.id == ar.aula_agendada_id))) }

/-- `INSERT INTO aulas_dias_semana (aula_id, dia_semana) VALUES (?, ?)`:
appends a fresh weekday row. -/
def insertDiaRow (db : DB) (aulaId : Nat) (dia : Int) : DB :=
  { db with
    diasSemana := db.diasSemana ++ [⟨db.nextDiaId, aulaId, dia⟩],
    nextDiaId := db.nextDiaId + 1 }

/-- The weekday-insertion loop of `configurar`, iteration counter `k`: an
out-of-range weekday deletes the just-created lesson and returns 400; a
store-level failure of the `INSERT` (oracle `diaFails k`) surfaces as a
persistence error with no cleanup; otherwise the weekday row is appended. -/
def insertDias (aulaId : Nat) (diaFails : Nat → Bool) :
    DB → List Int → Nat → DB × Except ApiError Unit
  | db, [], _ => (db, .ok ())
  | db, dia :: rest, k =>
    if dia < 0 ∨ dia > 6 then
      (deleteConfiguradaCascade db aulaId,
       .error (.invalidInput "Dia da semana deve estar entre 0 (domingo) e 6 (sábado)"))
    else if diaFails k then (db, .error (.persistence "insert failed"))
    else insertDias aulaId diaFails (insertDiaRow db aulaId dia) rest (k + 1)

/-- The fixed 4-week generation loop at the end of `configurar`: plain
inserts in candidate order, with no existence check. -/
def insertAgendamentos4 (db : DB) (aulaId : Nat) (dataInicio : Int) (dias : List Int)
    (now : Int) : DB :=
  (candidateDates dataInicio dias 4).foldl
    (fun db d => insertAgendada db aulaId d .agendada now) db

/-- `INSERT INTO aulas_configuradas (instrumento, turno, professor_id, data_inicio)`:
appends a fresh configured-lesson row. -/
def insertConfigurada (db : DB) (instrumento turno : String) (pid : Nat)
    (d0 : Int) : DB :=
  { db with
    configuradas := db.configuradas ++ [⟨db.nextConfigId, instrumento, turno, pid, d0⟩],
    nextConfigId := db.nextConfigId + 1 }

/-- `POST /api/aulas/configurar` (`AulasHandlers.configurar`): field
validation (JavaScript falsiness of the body fields is modelled by `Option`,
the empty string and `professor_id = 0`), shift validation, teacher
existence check, lesson insert, weekday-insertion loop, then the 4-week
generation loop. -/
def configurar (db : DB) (instrumento turno : String) (professor_id : Option Nat)
    (data_inicio : Option Int) (dias_semana : Option (List Int)) (diaFails : Nat → Bool)
    (now : Int) : DB × Except ApiError Nat :=
  match professor_id, data_inicio, dias_semana with
  | some pid, some d0, some dias =>
    if instrumento = "" ∨ turno = "" ∨ pid = 0 ∨ dias = [] then
      (db, .error (.invalidInput
        "Instrumento, turno, professor, data de início e dias da semana são obrigatórios"))
    else if turnoValido turno then
      match db.professores.find? (fun p => p.id == pid) with
      | none => (db, .error (.notFound "Professor não encontrado"))
      | some _ =>
        let aulaId := db.nextConfigId
        let db1 := insertConfigurada db instrumento turno pid d0
        let res := insertDias aulaId diaFails db1 dias 0
        match res.2 with
        | .error e => (res.1, .error e)
        | .ok _ => (insertAgendamentos4 res.1 aulaId d0 dias now, .ok aulaId)
    else (db, .error (.invalidInput "Turno deve ser manhã, tarde ou noite"))
  | _, _, _ =>
    (db, .error (.invalidInput
      "Instrumento, turno, professor, data de início e dias da semana são obrigatórios"))

/-! ### Recurrence expansion: helper lemmas -/

theorem candidateDates_succ (d : Int) (W : List Int) (N : Nat) :
    candidateDates d W (N + 1) =
      candidateDates d W N ++ W.map (fun w => candidateDate d w N) := by
  simp [candidateDates, List.range_succ]

theorem mem_candidateDates {x d : Int} {W : List Int} {N : Nat} :
    x ∈ candidateDates d W N ↔ ∃ w ∈ W, ∃ k < N, x = candidateDate d w k := by
  simp only [candidateDates, List.mem_flatMap, List.mem_map, List.mem_range]
  constructor
  · rintro ⟨k, hk, w, hw, rfl⟩
    exact ⟨w, hw, k, hk, rfl⟩
  · rintro ⟨w, hw, k, hk, rfl⟩
    exact ⟨k, hk, w, hw, rfl⟩

theorem candidateDate_weekday {w : Int} (d : Int) (k : Nat) (h0 : 0 ≤ w) (h6 : w ≤ 6) :
    candidateDate d w k % 7 = w := by
  unfold candidateDate
  omega

theorem le_candidateDate (d w : Int) (k : Nat) : d ≤ candidateDate d w k := by
  unfold candidateDate
  omega

theorem candidateDate_min {x w : Int} (d : Int) (h0 : 0 ≤ w) (h6 : w ≤ 6)
    (hdx : d ≤ x) (hwx : x % 7 = w) : candidateDate d w 0 ≤ x := by
  unfold candidateDate
  omega

theorem candidateDate_week_succ (d w : Int) (k : Nat) :
    candidateDate d w (k + 1) = candidateDate d w k + 7 := by
  unfold candidateDate
  push_cast
  ring

theorem filter_weekday_not_mem {d w : Int} {W : List Int} (h0 : 0 ≤ w) (h6 : w ≤ 6)
    (hWb : ∀ v ∈ W, 0 ≤ v ∧ v ≤ 6) (hw : w ∉ W) (k : Nat) :
    (W.map (fun v => candidateDate d v k)).filter (fun x => decide (x % 7 = w)) = [] := by
  induction W with
  | nil => rfl
  | cons v rest ih =>
    have hv := hWb v (by simp)
    have hvw : candidateDate d v k % 7 = v := candidateDate_weekday d k hv.1 hv.2
    have hne : v ≠ w := fun h => hw (h ▸ List.mem_cons_self v rest)
    simp only [List.map_cons, List.filter_cons]
    rw [if_neg (by simp [hvw]; omega)]
    exact ih (fun u hu => hWb u (List.mem_cons_of_mem _ hu))
      (fun h => hw (List.mem_cons_of_mem _ h))

theorem filter_weekday_mem {d w : Int} {W : List Int} (h0 : 0 ≤ w) (h6 : w ≤ 6)
    (hWb : ∀ v ∈ W, 0 ≤ v ∧ v ≤ 6) (hnd : W.Nodup) (hw : w ∈ W) (k : Nat) :
    (W.map (fun v => candidateDate d v k)).filter (fun x => decide (x % 7 = w)) =
      [candidateDate d w k] := by
  induction W with
  | nil => cases hw
  | cons v rest ih =>
    have hv := hWb v (by simp)
    have hvw : candidateDate d v k % 7 = v := candidateDate_weekday d k hv.1 hv.2
    rcases List.mem_cons.mp hw with rfl | hwr
    · simp only [List.map_cons, List.filter_cons]
      rw [if_pos (by simp [hvw])]
      rw [filter_weekday_not_mem h0 h6 (fun u hu => hWb u (List.mem_cons_of_mem _ hu))
        ((List.nodup_cons.mp hnd).1) k]
    · have hne : v ≠ w := by
        rintro rfl
        exact (List.nodup_cons.mp hnd).1 hwr
      simp only [List.map_cons, List.filter_cons]
      rw [if_neg (by simp [hvw]; omega)]
      exact ih (fun u hu => hWb u (List.mem_cons_of_mem _ hu))
        (List.nodup_cons.mp hnd).2 hwr

theorem filter_candidateDates {d w : Int} {W : List Int} (h0 : 0 ≤ w) (h6 : w ≤ 6)
    (hWb : ∀ v ∈ W, 0 ≤ v ∧ v ≤ 6) (hnd : W.Nodup) (hw : w ∈ W) (N : Nat) :
    (candidateDates d W N).filter (fun x => decide (x % 7 = w)) =
      (List.range N).map (fun k => candidateDate d w k) := by
  induction N with
  | zero => rfl
  | succ n ih =>
    rw [candidateDates_succ, List.filter_append, ih,
      filter_weekday_mem h0 h6 hWb hnd hw n, List.range_succ, List.map_append]
    rfl

/-- C1: for every start date `d`, weekday set `W` (each value in `[0,6]`)
and week count `N`, the expansion produces exactly the dates
`d + ((w - weekday d + 7) mod 7) + 7*k` for `w ∈ W`, `k < N`; for every
`w ∈ W` the subsequence of produced dates whose weekday is `w` is the
week-indexed family `candidateDate d w 0, candidateDate d w 1, ...` in week
order, its first element is the smallest date `≥ d` with weekday `w`, and
consecutive dates of the family differ by exactly 7 days. -/
theorem C1_expansion (d : Int) (W : List Int) (N : Nat) (w : Int)
    (hW : ∀ v ∈ W, 0 ≤ v ∧ v ≤ 6) (hnd : W.Nodup) (hw : w ∈ W) (hN : 0 < N) :
    (∀ x, x ∈ candidateDates d W N ↔ ∃ v ∈ W, ∃ k < N, x = candidateDate d v k) ∧
    (candidateDates d W N).filter (fun x => decide (x % 7 = w)) =
      (List.range N).map (fun k => candidateDate d w k) ∧
    ((candidateDates d W N).filter (fun x => decide (x % 7 = w))).head? =
      some (candidateDate d w 0) ∧
    (d ≤ candidateDate d w 0 ∧ candidateDate d w 0 % 7 = w ∧
      ∀ x, d ≤ x → x % 7 = w → candidateDate d w 0 ≤ x) ∧
    (∀ k : Nat, candidateDate d w (k + 1) = candidateDate d w k + 7) := by
  have hwb := hW w hw
  have hfilter := filter_candidateDates hwb.1 hwb.2 hW hnd hw (d := d) N
  refine ⟨fun x => mem_candidateDates, hfilter, ?_, ?_, fun k => candidateDate_week_succ d w k⟩
  · rw [hfilter]
    obtain ⟨n, rfl⟩ := Nat.exists_eq_succ_of_ne_zero (Nat.pos_iff_ne_zero.mp hN)
    rw [List.range_succ_eq_map]
    rfl
  · exact ⟨le_candidateDate d w 0, candidateDate_weekday d 0 hwb.1 hwb.2,
      fun x hdx hwx => candidateDate_min d hwb.1 hwb.2 hdx hwx⟩

/-- Witness for C1 at the spec example: start 2024-01-01 (day 1, Monday),
weekdays Monday and Wednesday, two weeks, checked for Wednesday (w = 3). -/
theorem C1_expansion_witness :
    (∀ x, x ∈ candidateDates 1 [1, 3] 2 ↔
      ∃ v ∈ [(1 : Int), 3], ∃ k < 2, x = candidateDate 1 v k) ∧
    (candidateDates 1 [1, 3] 2).filter (fun x => decide (x % 7 = 3)) =
      (List.range 2).map (fun k => candidateDate 1 3 k) ∧
    ((candidateDates 1 [1, 3] 2).filter (fun x => decide (x % 7 = 3))).head? =
      some (candidateDate 1 3 0) ∧
    ((1 : Int) ≤ candidateDate 1 3 0 ∧ candidateDate 1 3 0 % 7 = 3 ∧
      ∀ x, 1 ≤ x → x % 7 = 3 → candidateDate 1 3 0 ≤ x) ∧
    (∀ k : Nat, candidateDate 1 3 (k + 1) = candidateDate 1 3 k + 7) :=
  C1_expansion 1 [1, 3] 2 3 (by decide) (by decide) (by decide) (by decide)

/-! ### Concrete databases for witnesses and counterexamples -/

/-- One teacher, one configured lesson starting day 1, one scheduled
occurrence (id 1) of that lesson on day 5. -/
def dbW3 : DB :=
  ⟨[⟨1, "Ana", "piano"⟩], [⟨1, "piano", "manhã", 1, 1⟩], [⟨1, 1, 1⟩],
   [⟨1, 1, 5, .agendada, 0⟩], [], 2, 2, 2, 1⟩

/-- Like `dbW3` but the single occurrence is already cancelled. -/
def dbW8 : DB :=
  ⟨[⟨1, "Ana", "piano"⟩], [⟨1, "piano", "manhã", 1, 1⟩], [⟨1, 1, 1⟩],
   [⟨1, 1, 5, .cancelada, 0⟩], [], 2, 2, 2, 1⟩

/-- One teacher and one configured lesson with no weekday rows at all. -/
def dbC7 : DB :=
  ⟨[⟨1, "Ana", "piano"⟩], [⟨1, "piano", "manhã", 1, 1⟩], [], [], [], 2, 1, 1, 1⟩

/-! ### Occurrence lifecycle: reschedule, cancel -/

/-- C3: a successful reschedule of an existing occurrence with a strictly
future date appends exactly one reschedule record linking the source
occurrence to the new date and reason, sets the source occurrence status to
`reagendada`, appends exactly one new occurrence for the same configured
lesson at the new date with status `agendada`, and returns the new
occurrence id. -/
theorem C3_reschedule_success (db : DB) (id : Nat) (ag : Agendada) (nd : Int)
    (motivo : Option String) (now : Int)
    (hfind : db.agendadas.find? (fun a => a.id == id) = some ag) (hfut : now < nd) :
    reagendarAula db id (some nd) motivo now =
      ({ db with
          reagendamentos := db.reagendamentos ++ [⟨db.nextReagId, id, nd, motivo⟩],
          nextReagId := db.nextReagId + 1,
          agendadas :=
            db.agendadas.map (fun a =>
              if a.id = id then { a with status := .reagendada, updated_at := now } else a) ++
              [⟨db.nextAgendadaId, ag.aula_configurada_id, nd, .agendada, now⟩],
          nextAgendadaId := db.nextAgendadaId + 1 },
       .ok db.nextAgendadaId) ∧
    (reagendarAula db id (some nd) motivo now).1.reagendamentos.length =
      db.reagendamentos.length + 1 ∧
    (reagendarAula db id (some nd) motivo now).1.agendadas.length =
      db.agendadas.length + 1 ∧
    ∀ a ∈ db.agendadas, a.id = id →
      ({ a with status := Status.reagendada, updated_at := now } : Agendada) ∈
        (reagendarAula db id (some nd) motivo now).1.agendadas := by
  have heq : reagendarAula db id (some nd) motivo now =
      ({ db with
          reagendamentos := db.reagendamentos ++ [⟨db.nextReagId, id, nd, motivo⟩],
          nextReagId := db.nextReagId + 1,
          agendadas :=
            db.agendadas.map (fun a =>
              if a.id = id then { a with status := .reagendada, updated_at := now } else a) ++
              [⟨db.nextAgendadaId, ag.aula_configurada_id, nd, .agendada, now⟩],
          nextAgendadaId := db.nextAgendadaId + 1 },
       .ok db.nextAgendadaId) := by
    simp only [reagendarAula, hfind]
    rw [if_neg (not_le.mpr hfut)]
    rfl
  refine ⟨heq, by rw [heq]; simp, by rw [heq]; simp, fun a ha hid => ?_⟩
  rw [heq]
  exact List.mem_append_left _
    (List.mem_map.mpr ⟨a, ha, by rw [if_pos hid]⟩)

/-- Witness for C3: occurrence 1 of lesson 1 on day 5 is rescheduled to
day 20 at moment 10. -/
theorem C3_reschedule_success_witness :
    reagendarAula dbW3 1 (some 20) none 10 =
      ({ dbW3 with
          reagendamentos := dbW3.reagendamentos ++ [⟨dbW3.nextReagId, 1, 20, none⟩],
          nextReagId := dbW3.nextReagId + 1,
          agendadas :=
            dbW3.agendadas.map (fun a =>
              if a.id = 1 then { a with status := .reagendada, updated_at := 10 } else a) ++
              [⟨dbW3.nextAgendadaId, 1, 20, .agendada, 10⟩],
          nextAgendadaId := dbW3.nextAgendadaId + 1 },
       .ok dbW3.nextAgendadaId) ∧
    (reagendarAula dbW3 1 (some 20) none 10).1.reagendamentos.length =
      dbW3.reagendamentos.length + 1 ∧
    (reagendarAula dbW3 1 (some 20) none 10).1.agendadas.length =
      dbW3.agendadas.length + 1 ∧
    ∀ a ∈ dbW3.agendadas, a.id = 1 →
      ({ a with status := Status.reagendada, updated_at := 10 } : Agendada) ∈
        (reagendarAula dbW3 1 (some 20) none 10).1.agendadas :=
  C3_reschedule_success dbW3 1 ⟨1, 1, 5, .agendada, 0⟩ 20 none 10 (by rfl) (by decide)

/-- C4: rescheduling a nonexistent occurrence returns NotFound leaving the
whole state (in particular the reschedule records) unchanged; rescheduling
an existing occurrence with a missing new date, or with a new date at or
before the current moment, returns InvalidInput leaving the whole state (in
particular the source occurrence status) unchanged. -/
theorem C4_reschedule_errors (db : DB) (id : Nat) (nova_data : Option Int)
    (motivo : Option String) (now : Int) :
    (db.agendadas.find? (fun a => a.id == id) = none →
      reagendarAula db id nova_data motivo now =
        (db, .error (.notFound "Agendamento não encontrado"))) ∧
    (∀ ag, db.agendadas.find? (fun a => a.id == id) = some ag →
      reagendarAula db id none motivo now =
        (db, .error (.invalidInput "Nova data inválida"))) ∧
    (∀ ag nd, db.agendadas.find? (fun a => a.id == id) = some ag → nd ≤ now →
      reagendarAula db id (some nd) motivo now =
        (db, .error (.invalidInput "Nova data inválida"))) := by
  refine ⟨fun h => ?_, fun ag h => ?_, fun ag nd h hle => ?_⟩
  · simp [reagendarAula, h]
  · simp [reagendarAula, h]
  · simp only [reagendarAula, h]
    rw [if_pos hle]

/-- Witness for C4: a missing id, a missing new date and a non-future new
date on a concrete one-occurrence database. -/
theorem C4_reschedule_errors_witness :
    reagendarAula dbW3 99 (some 20) none 10 =
      (dbW3, .error (.notFound "Agendamento não encontrado")) ∧
    reagendarAula dbW3 1 none none 10 =
      (dbW3, .error (.invalidInput "Nova data inválida")) ∧
    reagendarAula dbW3 1 (some 10) none 10 =
      (dbW3, .error (.invalidInput "Nova data inválida")) :=
  ⟨(C4_reschedule_errors dbW3 99 (some 20) none 10).1 (by rfl),
   (C4_reschedule_errors dbW3 1 none none 10).2.1 ⟨1, 1, 5, .agendada, 0⟩ (by rfl),
   (C4_reschedule_errors dbW3 1 (some 10) none 10).2.2 ⟨1, 1, 5, .agendada, 0⟩ 10
     (by rfl) (by decide)⟩

/-- C8: cancelling a nonexistent occurrence returns NotFound changing
nothing; cancelling an existing occurrence succeeds and sets its status to
`cancelada` whatever the prior status was (the found row `ag` is
unconstrained). -/
theorem C8_cancel (db : DB) (id : Nat) (motivo : Option String) (now : Int) :
    (db.agendadas.find? (fun a => a.id == id) = none →
      cancelarAula db id motivo now =
        (db, .error (.notFound "Agendamento não encontrado"))) ∧
    (∀ ag, db.agendadas.find? (fun a => a.id == id) = some ag →
      (cancelarAula db id motivo now).2 = .ok "Aula cancelada com sucesso" ∧
      ∀ a ∈ (cancelarAula db id motivo now).1.agendadas,
        a.id = id → a.status = .cancelada) := by
  refine ⟨fun h => by simp [cancelarAula, h], fun ag h => ?_⟩
  refine ⟨by simp [cancelarAula, h], fun a ha hid => ?_⟩
  simp only [cancelarAula, h] at ha
  rcases List.mem_map.mp ha with ⟨b, hb, rfl⟩
  by_cases hbid : b.id = id
  · rw [if_pos hbid]
  · rw [if_neg hbid] at hid ⊢
    exact absurd hid hbid

/-- Witness for C8: on a database whose only occurrence is already
cancelled, cancel still reports success and leaves it cancelled. -/
theorem C8_cancel_witness :
    (cancelarAula dbW8 1 none 10).2 = .ok "Aula cancelada com sucesso" ∧
    ∀ a ∈ (cancelarAula dbW8 1 none 10).1.agendadas,
      a.id = 1 → a.status = .cancelada :=
  (C8_cancel dbW8 1 none 10).2 ⟨1, 1, 5, .cancelada, 0⟩ (by rfl)

/-- C10: cancelling an existing occurrence is independent of the `motivo`
argument (the reason is never persisted), leaves every other table and
counter unchanged, creates no reschedule record, and rewrites the
occurrence table pointwise so that only the addressed row changes, and only
in its `status` and `updated_at` fields. -/
theorem C10_cancel_frame (db : DB) (id : Nat) (m1 m2 : Option String) (now : Int)
    (ag : Agendada) (hfind : db.agendadas.find? (fun a => a.id == id) = some ag) :
    cancelarAula db id m1 now = cancelarAula db id m2 now ∧
    (cancelarAula db id m1 now).1.professores = db.professores ∧
    (cancelarAula db id m1 now).1.configuradas = db.configuradas ∧
    (cancelarAula db id m1 now).1.diasSemana = db.diasSemana ∧
    (cancelarAula db id m1 now).1.reagendamentos = db.reagendamentos ∧
    (cancelarAula db id m1 now).1.nextConfigId = db.nextConfigId ∧
    (cancelarAula db id m1 now).1.nextDiaId = db.nextDiaId ∧
    (cancelarAula db id m1 now).1.nextAgendadaId = db.nextAgendadaId ∧
    (cancelarAula db id m1 now).1.nextReagId = db.nextReagId ∧
    (cancelarAula db id m1 now).1.agendadas.length = db.agendadas.length ∧
    ∀ i : Nat, (cancelarAula db id m1 now).1.agendadas[i]? =
      (db.agendadas[i]?).map (fun a : Agendada =>
        if a.id = id then { a with status := Status.cancelada, updated_at := now }
        else a) := by
  simp [cancelarAula, hfind, List.getElem?_map]

/-- Witness for C10 on a concrete one-occurrence database. -/
theorem C10_cancel_frame_witness :
    cancelarAula dbW3 1 (some "motivo qualquer") 10 = cancelarAula dbW3 1 none 10 ∧
    (cancelarAula dbW3 1 (some "motivo qualquer") 10).1.professores = dbW3.professores ∧
    (cancelarAula dbW3 1 (some "motivo qualquer") 10).1.configuradas = dbW3.configuradas ∧
    (cancelarAula dbW3 1 (some "motivo qualquer") 10).1.diasSemana = dbW3.diasSemana ∧
    (cancelarAula dbW3 1 (some "motivo qualquer") 10).1.reagendamentos =
      dbW3.reagendamentos ∧
    (cancelarAula dbW3 1 (some "motivo qualquer") 10).1.nextConfigId = dbW3.nextConfigId ∧
    (cancelarAula dbW3 1 (some "motivo qualquer") 10).1.nextDiaId = dbW3.nextDiaId ∧
    (cancelarAula dbW3 1 (some "motivo qualquer") 10).1.nextAgendadaId =
      dbW3.nextAgendadaId ∧
    (cancelarAula dbW3 1 (some "motivo qualquer") 10).1.nextReagId = dbW3.nextReagId ∧
    (cancelarAula dbW3 1 (some "motivo qualquer") 10).1.agendadas.length =
      dbW3.agendadas.length ∧
    ∀ i : Nat, (cancelarAula dbW3 1 (some "motivo qualquer") 10).1.agendadas[i]? =
      (dbW3.agendadas[i]?).map (fun a : Agendada =>
        if a.id = 1 then { a with status := Status.cancelada, updated_at := 10 }
        else a) :=
  C10_cancel_frame dbW3 1 (some "motivo qualquer") none 10 ⟨1, 1, 5, .agendada, 0⟩ (by rfl)

/-! ### Empty weekday set -/

/-- C7 (amended): recurrence expansion over an empty weekday list produces
the empty sequence, but occurrence generation for a configured lesson with
no weekday rows does not succeed: it is rejected with InvalidInput, the
state unchanged (so zero occurrences are created). -/
theorem C7_empty_weekdays (db : DB) (id : Nat) (semanas : Option Nat) (now : Int)
    (d : Int) (N : Nat) (aula : Configurada)
    (hfind : db.configuradas.find? (fun ac => ac.id == id) = some aula)
    (hdias : diasOf db id = []) :
    candidateDates d [] N = [] ∧
    gerarAgendamento db id semanas now =
      (db, .error (.invalidInput "Aula não possui dias da semana configurados")) := by
  constructor
  · simp [candidateDates]
  · simp [gerarAgendamento, hfind, hdias]

/-- C7 counterexample: on a database whose lesson 1 has no weekday rows,
occurrence generation returns an error rather than succeeding with zero
occurrences, refuting the claim that an empty weekday set is accepted by
generation as valid input. -/
theorem C7_counterexample :
    gerarAgendamento dbC7 1 none 0 =
      (dbC7, .error (.invalidInput "Aula não possui dias da semana configurados")) ∧
    ∀ l : List (Nat × Int), (gerarAgendamento dbC7 1 none 0).2 ≠ .ok l := by
  refine ⟨rfl, fun l h => ?_⟩
  rw [show (gerarAgendamento dbC7 1 none 0).2 =
    .error (.invalidInput "Aula não possui dias da semana configurados") from rfl] at h
  exact Except.noConfusion h

/-- Witness for C7 (amended) at the concrete database `dbC7`. -/
theorem C7_empty_weekdays_witness :
    candidateDates 5 [] 3 = [] ∧
    gerarAgendamento dbC7 1 none 0 =
      (dbC7, .error (.invalidInput "Aula não possui dias da semana configurados")) :=
  C7_empty_weekdays dbC7 1 none 0 5 3 ⟨1, "piano", "manhã", 1, 1⟩ (by rfl) (by rfl)

/-! ### Join membership lemmas -/

theorem some_mem_reagOpts {db : DB} {aaId : Nat} {r : Reagendamento} :
    some r ∈ reagOpts db aaId ↔ r ∈ db.reagendamentos ∧ r.aula_agendada_id = aaId := by
  constructor
  · intro h
    unfold reagOpts at h
    split at h
    · simp at h
    · next r0 ms hms =>
        simp only [List.mem_map, Option.some.injEq] at h
        obtain ⟨a, ha, rfl⟩ := h
        rw [← hms] at ha
        exact ⟨(List.mem_filter.mp ha).1, by simpa using (List.mem_filter.mp ha).2⟩
  · rintro ⟨hr, hid⟩
    have hmem : r ∈ db.reagendamentos.filter (fun ar => ar.aula_agendada_id == aaId) :=
      List.mem_filter.mpr ⟨hr, by simp [hid]⟩
    unfold reagOpts
    split
    · next hms => rw [hms] at hmem; cases hmem
    · next r0 ms hms =>
        rw [hms] at hmem
        exact List.mem_map.mpr ⟨r, hmem, rfl⟩

theorem none_mem_reagOpts {db : DB} {aaId : Nat} :
    (none : Option Reagendamento) ∈ reagOpts db aaId ↔
      ∀ r ∈ db.reagendamentos, r.aula_agendada_id ≠ aaId := by
  unfold reagOpts
  split
  · next hms =>
      simp only [List.mem_singleton, true_iff]
      intro r hr hid
      have hmem : r ∈ db.reagendamentos.filter (fun ar => ar.aula_agendada_id == aaId) :=
        List.mem_filter.mpr ⟨hr, by simp [hid]⟩
      rw [hms] at hmem
      cases hmem
  · next r0 ms hms =>
      simp only [List.mem_map]
      constructor
      · rintro ⟨a, _, h⟩
        cases h
      · intro hall
        have hr0 : r0 ∈ db.reagendamentos.filter (fun ar => ar.aula_agendada_id == aaId) := by
          rw [hms]
          exact List.mem_cons_self r0 ms
        have h := List.mem_filter.mp hr0
        exact absurd (by simpa using h.2) (hall r0 h.1)

theorem mem_leftJoinReag {db : DB} {aa aa' : Agendada} {o : Option Reagendamento} :
    (aa', o) ∈ leftJoinReag db aa ↔ aa' = aa ∧ o ∈ reagOpts db aa.id := by
  simp only [leftJoinReag, List.mem_map, Prod.mk.injEq]
  constructor
  · rintro ⟨o', ho', rfl, rfl⟩
    exact ⟨rfl, ho'⟩
  · rintro ⟨rfl, ho⟩
    exact ⟨o, ho, rfl, rfl⟩

theorem mem_agendaJoin {db : DB} {row : AgendaRow} :
    row ∈ agendaJoin db ↔
      row.agendada ∈ db.agendadas ∧
      (∃ ac ∈ db.configuradas, ac.id = row.agendada.aula_configurada_id ∧
        row.instrumento = ac.instrumento ∧ row.turno = ac.turno ∧
        ∃ p ∈ db.professores, p.id = ac.professor_id ∧
          row.professor_nome = p.nome ∧ row.professor_especialidade = p.especialidade) ∧
      row.reag ∈ reagOpts db row.agendada.id := by
  unfold agendaJoin
  simp only [List.mem_flatMap, List.mem_filter, List.mem_map, beq_iff_eq]
  constructor
  · rintro ⟨aa, haa, ac, ⟨hac, hacid⟩, p, ⟨hp, hpid⟩, o, ho, rfl⟩
    exact ⟨haa, ⟨ac, hac, hacid, rfl, rfl, p, hp, hpid, rfl, rfl⟩, ho⟩
  · rintro ⟨haa, ⟨ac, hac, hacid, hinst, hturno, p, hp, hpid, hnome, hesp⟩, ho⟩
    refine ⟨row.agendada, haa, ac, ⟨hac, hacid⟩, p, ⟨hp, hpid⟩, row.reag, ho, ?_⟩
    cases row
    simp_all

/-! ### Query by period (C5) -/

/-- C5 (amended): for an existing configured lesson and an optional
inclusive date range (applied only when both endpoints are supplied, as in
the code), the query returns the join rows ordered by date ascending, where
an occurrence with reschedule records yields one output row per record —
not only its most recent one — and an occurrence with none yields a single
row with empty reschedule info. -/
theorem C5_period_query (db : DB) (id : Nat) (data_inicio data_fim : Option Int)
    (aula : Configurada)
    (hfind : db.configuradas.find? (fun ac => ac.id == id) = some aula) :
    ∃ rows, obterAgendamento db id data_inicio data_fim = .ok rows ∧
      List.Sorted dateLe rows ∧
      (∀ p : Agendada × Option Reagendamento, p ∈ rows ↔
        p ∈ (db.agendadas.flatMap (leftJoinReag db)).filter
          (fun q => periodoPred id data_inicio data_fim q.1)) ∧
      (∀ aa r, (aa, some r) ∈ rows ↔
        aa ∈ db.agendadas ∧ periodoPred id data_inicio data_fim aa = true ∧
          r ∈ db.reagendamentos ∧ r.aula_agendada_id = aa.id) ∧
      (∀ aa, (aa, (none : Option Reagendamento)) ∈ rows ↔
        aa ∈ db.agendadas ∧ periodoPred id data_inicio data_fim aa = true ∧
          ∀ r ∈ db.reagendamentos, r.aula_agendada_id ≠ aa.id) := by
  have hok : obterAgendamento db id data_inicio data_fim =
      .ok (List.insertionSort dateLe
        ((db.agendadas.flatMap (leftJoinReag db)).filter
          (fun p => periodoPred id data_inicio data_fim p.1))) := by
    simp [obterAgendamento, hfind]
  refine ⟨_, hok, List.sorted_insertionSort dateLe _,
    fun p => List.mem_insertionSort dateLe, fun aa r => ?_, fun aa => ?_⟩
  · rw [List.mem_insertionSort, List.mem_filter, List.mem_flatMap]
    constructor
    · rintro ⟨⟨aa0, haa0, hmem⟩, hpred⟩
      obtain ⟨rfl, ho⟩ := mem_leftJoinReag.mp hmem
      obtain ⟨hr, hid⟩ := some_mem_reagOpts.mp ho
      exact ⟨haa0, hpred, hr, hid⟩
    · rintro ⟨haa, hpred, hr, hid⟩
      exact ⟨⟨aa, haa,
        mem_leftJoinReag.mpr ⟨rfl, some_mem_reagOpts.mpr ⟨hr, hid⟩⟩⟩, hpred⟩
  · rw [List.mem_insertionSort, List.mem_filter, List.mem_flatMap]
    constructor
    · rintro ⟨⟨aa0, haa0, hmem⟩, hpred⟩
      obtain ⟨rfl, ho⟩ := mem_leftJoinReag.mp hmem
      exact ⟨haa0, hpred, none_mem_reagOpts.mp ho⟩
    · rintro ⟨haa, hpred, hall⟩
      exact ⟨⟨aa, haa,
        mem_leftJoinReag.mpr ⟨rfl, none_mem_reagOpts.mpr hall⟩⟩, hpred⟩

/-- One occurrence of lesson 1 with two reschedule records. -/
def dbC5 : DB :=
  ⟨[⟨1, "Ana", "piano"⟩], [⟨1, "piano", "manhã", 1, 1⟩], [⟨1, 1, 1⟩],
   [⟨1, 1, 5, .agendada, 0⟩], [⟨1, 1, 9, none⟩, ⟨2, 1, 12, none⟩], 2, 2, 2, 3⟩

/-- C5 counterexample: with one occurrence carrying two reschedule records
the query returns two output rows for that single occurrence — the first of
which carries the older record — refuting "one output row per occurrence,
joined with at most its most recent reschedule record". -/
theorem C5_counterexample :
    obterAgendamento dbC5 1 none none =
      .ok [(⟨1, 1, 5, .agendada, 0⟩, some ⟨1, 1, 9, none⟩),
           (⟨1, 1, 5, .agendada, 0⟩, some ⟨2, 1, 12, none⟩)] ∧
    (dbC5.agendadas.filter (fun a => a.aula_configurada_id == 1)).length = 1 ∧
    ¬ ∀ rows, obterAgendamento dbC5 1 none none = .ok rows →
        rows.length =
          (dbC5.agendadas.filter (fun a => a.aula_configurada_id == 1)).length := by
  refine ⟨rfl, rfl, fun h => ?_⟩
  exact absurd (h _ rfl) (by decide)

/-- Witness for C5 (amended) at the two-record database `dbC5`. -/
theorem C5_period_query_witness :
    ∃ rows, obterAgendamento dbC5 1 none none = .ok rows ∧
      List.Sorted dateLe rows ∧
      (∀ p : Agendada × Option Reagendamento, p ∈ rows ↔
        p ∈ (dbC5.agendadas.flatMap (leftJoinReag dbC5)).filter
          (fun q => periodoPred 1 none none q.1)) ∧
      (∀ aa r, (aa, some r) ∈ rows ↔
        aa ∈ dbC5.agendadas ∧ periodoPred 1 none none aa = true ∧
          r ∈ dbC5.reagendamentos ∧ r.aula_agendada_id = aa.id) ∧
      (∀ aa, (aa, (none : Option Reagendamento)) ∈ rows ↔
        aa ∈ dbC5.agendadas ∧ periodoPred 1 none none aa = true ∧
          ∀ r ∈ dbC5.reagendamentos, r.aula_agendada_id ≠ aa.id) :=
  C5_period_query dbC5 1 none none ⟨1, "piano", "manhã", 1, 1⟩ (by rfl)

/-! ### Weekly agenda (C6) -/

theorem agenda_core (db : DB) (ws : Int) :
    List.Sorted agendaLe (List.insertionSort agendaLe ((agendaJoin db).filter (fun r =>
      decide (ws ≤ r.agendada.data_aula) && decide (r.agendada.data_aula ≤ ws + 6)))) ∧
    ∀ row, row ∈ List.insertionSort agendaLe ((agendaJoin db).filter (fun r =>
        decide (ws ≤ r.agendada.data_aula) && decide (r.agendada.data_aula ≤ ws + 6))) ↔
      row ∈ agendaJoin db ∧ ws ≤ row.agendada.data_aula ∧
        row.agendada.data_aula ≤ ws + 6 := by
  refine ⟨List.sorted_insertionSort agendaLe _, fun row => ?_⟩
  rw [List.mem_insertionSort, List.mem_filter]
  simp

/-- C6 (amended): when an anchor date is supplied the weekly agenda window
is the anchor itself through anchor + 6 — the anchor is NOT normalised to
the Monday of its week; only when no anchor is supplied is the window start
computed from today as `today - weekday + (weekday == 0 ? -6 : 1)`.  The
returned occurrences are exactly the joined rows (across all lessons,
enriched with instrument, shift and teacher data and one row per reschedule
record) whose date falls in the window, ordered by date then shift. -/
theorem C6_weekly_agenda (db : DB) (data_inicio : Option Int) (today : Int) :
    (obterAgendaSemanal db data_inicio today).1 =
      (match data_inicio with
       | some d => d
       | none => today - today % 7 + (if today % 7 = 0 then -6 else 1)) ∧
    (obterAgendaSemanal db data_inicio today).2.1 =
      (obterAgendaSemanal db data_inicio today).1 + 6 ∧
    List.Sorted agendaLe (obterAgendaSemanal db data_inicio today).2.2 ∧
    (∀ row, row ∈ (obterAgendaSemanal db data_inicio today).2.2 ↔
      row ∈ agendaJoin db ∧
        (obterAgendaSemanal db data_inicio today).1 ≤ row.agendada.data_aula ∧
        row.agendada.data_aula ≤ (obterAgendaSemanal db data_inicio today).1 + 6) ∧
    (∀ row, row ∈ agendaJoin db ↔
      row.agendada ∈ db.agendadas ∧
      (∃ ac ∈ db.configuradas, ac.id = row.agendada.aula_configurada_id ∧
        row.instrumento = ac.instrumento ∧ row.turno = ac.turno ∧
        ∃ p ∈ db.professores, p.id = ac.professor_id ∧
          row.professor_nome = p.nome ∧ row.professor_especialidade = p.especialidade) ∧
      row.reag ∈ reagOpts db row.agendada.id) := by
  cases data_inicio with
  | some d =>
    exact ⟨rfl, rfl, (agenda_core db d).1, (agenda_core db d).2,
      fun row => mem_agendaJoin⟩
  | none =>
    exact ⟨rfl, rfl, (agenda_core db _).1, (agenda_core db _).2,
      fun row => mem_agendaJoin⟩

/-- An empty database, enough to exhibit the window computation. -/
def dbC6 : DB := ⟨[], [], [], [], [], 1, 1, 1, 1⟩

/-- C6 counterexample: with the anchor 2024-01-10 (day 10, a Wednesday) the
returned window is day 10 .. day 16, not the Monday-to-Sunday window
day 8 (2024-01-08) .. day 14 (2024-01-14) the claim requires. -/
theorem C6_counterexample :
    (obterAgendaSemanal dbC6 (some 10) 42).1 = 10 ∧
    (obterAgendaSemanal dbC6 (some 10) 42).2.1 = 16 ∧
    (obterAgendaSemanal dbC6 (some 10) 42).1 ≠ 8 ∧
    (obterAgendaSemanal dbC6 (some 10) 42).2.1 ≠ 14 := by
  refine ⟨rfl, rfl, ?_, ?_⟩ <;> decide

/-! ### Materialization: helper lemmas (C2) -/

theorem existsAgendamento_insert_iff (db : DB) (i : Nat) (d x : Int) (st : Status)
    (now : Int) :
    existsAgendamento (insertAgendada db i d st now) i x = true ↔
      x = d ∨ existsAgendamento db i x = true := by
  simp only [existsAgendamento, insertAgendada, List.any_append, List.any_cons,
    List.any_nil, Bool.or_false, Bool.or_eq_true, Bool.and_eq_true, beq_iff_eq,
    beq_self_eq_true, true_and]
  constructor
  · rintro (h | h)
    · exact Or.inr h
    · exact Or.inl h.symm
  · rintro (h | h)
    · exact Or.inr h.symm
    · exact Or.inl h

theorem materializeLoop_frame (i : Nat) (now : Int) (cs : List Int) (db : DB) :
    (materializeLoop i now db cs).1.professores = db.professores ∧
    (materializeLoop i now db cs).1.configuradas = db.configuradas ∧
    (materializeLoop i now db cs).1.diasSemana = db.diasSemana ∧
    (materializeLoop i now db cs).1.reagendamentos = db.reagendamentos ∧
    (materializeLoop i now db cs).1.nextConfigId = db.nextConfigId ∧
    (materializeLoop i now db cs).1.nextDiaId = db.nextDiaId ∧
    (materializeLoop i now db cs).1.nextReagId = db.nextReagId := by
  induction cs generalizing db with
  | nil => exact ⟨rfl, rfl, rfl, rfl, rfl, rfl, rfl⟩
  | cons c rest ih =>
    by_cases h : existsAgendamento db i c
    · simpa only [materializeLoop, if_pos h] using ih db
    · simpa only [materializeLoop, if_neg h] using ih (insertAgendada db i c .agendada now)

theorem existsAgendamento_materializeLoop (i : Nat) (now : Int) (cs : List Int)
    (db : DB) (x : Int) :
    existsAgendamento (materializeLoop i now db cs).1 i x = true ↔
      x ∈ cs ∨ existsAgendamento db i x = true := by
  induction cs generalizing db with
  | nil => simp [materializeLoop]
  | cons c rest ih =>
    by_cases h : existsAgendamento db i c
    · rw [show materializeLoop i now db (c :: rest) = materializeLoop i now db rest from by
        simp only [materializeLoop, if_pos h]]
      rw [ih]
      constructor
      · rintro (hx | hx)
        · exact Or.inl (List.mem_cons_of_mem _ hx)
        · exact Or.inr hx
      · rintro (hx | hx)
        · rcases List.mem_cons.mp hx with rfl | hx'
          · exact Or.inr h
          · exact Or.inl hx'
        · exact Or.inr hx
    · rw [show (materializeLoop i now db (c :: rest)).1 =
          (materializeLoop i now (insertAgendada db i c .agendada now) rest).1 from by
        simp only [materializeLoop, if_neg h]]
      rw [ih, existsAgendamento_insert_iff]
      constructor
      · rintro (hx | hx | hx)
        · exact Or.inl (List.mem_cons_of_mem _ hx)
        · exact Or.inl (hx ▸ List.mem_cons_self c rest)
        · exact Or.inr hx
      · rintro (hx | hx)
        · rcases List.mem_cons.mp hx with rfl | hx'
          · exact Or.inr (Or.inl rfl)
          · exact Or.inl hx'
        · exact Or.inr (Or.inr hx)

theorem materializeLoop_all_exists (i : Nat) (now : Int) (cs : List Int) (db : DB)
    (h : ∀ c ∈ cs, existsAgendamento db i c = true) :
    materializeLoop i now db cs = (db, []) := by
  induction cs with
  | nil => rfl
  | cons c rest ih =>
    rw [show materializeLoop i now db (c :: rest) = materializeLoop i now db rest from by
      simp only [materializeLoop, if_pos (h c (List.mem_cons_self c rest))]]
    exact ih (fun c' h' => h c' (List.mem_cons_of_mem _ h'))

theorem materializeLoop_created (i : Nat) (now : Int) (cs : List Int) (db : DB)
    (hnd : cs.Nodup) :
    (materializeLoop i now db cs).2.map Prod.snd =
      cs.filter (fun c => !existsAgendamento db i c) := by
  induction cs generalizing db with
  | nil => rfl
  | cons c rest ih =>
    obtain ⟨hni, hnd'⟩ := List.nodup_cons.mp hnd
    by_cases h : existsAgendamento db i c
    · rw [show materializeLoop i now db (c :: rest) = materializeLoop i now db rest from by
        simp only [materializeLoop, if_pos h]]
      rw [List.filter_cons, if_neg (by simp [h]), ih db hnd']
    · rw [show materializeLoop i now db (c :: rest) =
          ((materializeLoop i now (insertAgendada db i c .agendada now) rest).1,
            (db.nextAgendadaId, c) ::
              (materializeLoop i now (insertAgendada db i c .agendada now) rest).2) from by
        simp only [materializeLoop, if_neg h]]
      rw [List.filter_cons, if_pos (by simp [h])]
      simp only [List.map_cons]
      rw [ih _ hnd']
      congr 1
      refine List.filter_congr fun x hx => ?_
      have hxc : x ≠ c := fun hEq => hni (hEq ▸ hx)
      have : existsAgendamento (insertAgendada db i c .agendada now) i x =
          existsAgendamento db i x := by
        rcases h2 : existsAgendamento db i x with _ | _
        · rw [Bool.eq_false_iff]
          intro h3
          rcases (existsAgendamento_insert_iff db i c x .agendada now).mp h3 with h4 | h4
          · exact hxc h4
          · rw [h2] at h4; cases h4
        · exact (existsAgendamento_insert_iff db i c x .agendada now).mpr (Or.inr h2)
      rw [this]

theorem candidateDate_lower (d w : Int) (k : Nat) :
    d + 7 * (k : Int) ≤ candidateDate d w k := by
  unfold candidateDate
  omega

theorem mem_candidateDates_lt {x d : Int} {dias : List Int} {N : Nat}
    (hb : ∀ v ∈ dias, 0 ≤ v ∧ v ≤ 6) (hx : x ∈ candidateDates d dias N) :
    x < d + 7 * (N : Int) := by
  obtain ⟨w, hw, k, hk, rfl⟩ := mem_candidateDates.mp hx
  have hwb := hb w hw
  have hkN : (k : Int) < (N : Int) := by exact_mod_cast hk
  unfold candidateDate
  omega

theorem nodup_map_candidateDate {d : Int} {dias : List Int} (k : Nat)
    (hb : ∀ v ∈ dias, 0 ≤ v ∧ v ≤ 6) (hnd : dias.Nodup) :
    (dias.map (fun w => candidateDate d w k)).Nodup := by
  refine List.Nodup.map_on ?_ hnd
  intro x hx y hy hEq
  have hbx := hb x hx
  have hby := hb y hy
  unfold candidateDate at hEq
  omega

theorem nodup_candidateDates {d : Int} {dias : List Int} (N : Nat)
    (hb : ∀ v ∈ dias, 0 ≤ v ∧ v ≤ 6) (hnd : dias.Nodup) :
    (candidateDates d dias N).Nodup := by
  induction N with
  | zero => exact List.nodup_nil
  | succ n ih =>
    rw [candidateDates_succ]
    refine List.Nodup.append ih (nodup_map_candidateDate n hb hnd) ?_
    intro x hx hx'
    have h1 := mem_candidateDates_lt hb hx
    rcases List.mem_map.mp hx' with ⟨w, hw, rfl⟩
    have h2 := candidateDate_lower d w n
    omega

theorem candidateDates_split (d : Int) (dias : List Int) (N1 N2 : Nat) (h : N1 ≤ N2) :
    candidateDates d dias N2 =
      candidateDates d dias N1 ++
        ((List.range (N2 - N1)).map (fun j => N1 + j)).flatMap
          (fun k => dias.map (fun w => candidateDate d w k)) := by
  conv_lhs => rw [show N2 = N1 + (N2 - N1) from (Nat.add_sub_cancel' h).symm]
  rw [candidateDates, List.range_add, List.flatMap_append]
  rfl

/-- C2: (a) running occurrence generation twice with the same arguments
leaves the state of the first run unchanged, and when the first run
succeeded the second run succeeds creating zero occurrences (so never more
total rows than a single run); (b) starting from a state with no
occurrences for the lesson, a first run with `N1` weeks creates exactly the
candidate dates of weeks `[0, N1)`, and a second run with `N2 ≥ N1` weeks
creates exactly the candidate dates of the weeks `[N1, N2)` beyond the
first run's range — no duplicates of the earlier ones. -/
theorem C2_idempotent_generation :
    (∀ (db : DB) (id : Nat) (sem : Option Nat) (now1 now2 : Int),
      (gerarAgendamento (gerarAgendamento db id sem now1).1 id sem now2).1 =
        (gerarAgendamento db id sem now1).1 ∧
      ∀ l, (gerarAgendamento db id sem now1).2 = .ok l →
        (gerarAgendamento (gerarAgendamento db id sem now1).1 id sem now2).2 = .ok []) ∧
    (∀ (db : DB) (id : Nat) (N1 N2 : Nat) (now1 now2 : Int) (aula : Configurada),
      db.configuradas.find? (fun ac => ac.id == id) = some aula →
      (∀ v ∈ diasOf db id, 0 ≤ v ∧ v ≤ 6) →
      (diasOf db id).Nodup →
      diasOf db id ≠ [] →
      (∀ x, existsAgendamento db id x = false) →
      0 < N1 → N1 ≤ N2 →
      (∃ l1, (gerarAgendamento db id (some N1) now1).2 = .ok l1 ∧
        l1.map Prod.snd = candidateDates aula.data_inicio (diasOf db id) N1) ∧
      (∃ l2, (gerarAgendamento (gerarAgendamento db id (some N1) now1).1 id
          (some N2) now2).2 = .ok l2 ∧
        l2.map Prod.snd =
          ((List.range (N2 - N1)).map (fun j => N1 + j)).flatMap
            (fun k => (diasOf db id).map
              (fun w => candidateDate aula.data_inicio w k)))) := by
  constructor
  · intro db id sem now1 now2
    rcases hfind : db.configuradas.find? (fun ac => ac.id == id) with _ | aula
    · have h1 : gerarAgendamento db id sem now1 =
          (db, .error (.notFound "Aula não encontrada")) := by
        simp [gerarAgendamento, hfind]
      refine ⟨?_, fun l hl => ?_⟩
      · rw [h1]
        simp [gerarAgendamento, hfind]
      · rw [h1] at hl
        cases hl
    · by_cases hdias : (diasOf db id).isEmpty = true
      · have h1 : gerarAgendamento db id sem now1 =
            (db, .error (.invalidInput "Aula não possui dias da semana configurados")) := by
          simp [gerarAgendamento, hfind, hdias]
        refine ⟨?_, fun l hl => ?_⟩
        · rw [h1]
          simp [gerarAgendamento, hfind, hdias]
        · rw [h1] at hl
          cases hl
      · have hdF : (diasOf db id).isEmpty = false := Bool.eq_false_iff.mpr hdias
        have h1 : gerarAgendamento db id sem now1 =
            ((materializeLoop id now1 db
                (candidateDates aula.data_inicio (diasOf db id) (jsOrWeeks sem))).1,
             .ok (materializeLoop id now1 db
                (candidateDates aula.data_inicio (diasOf db id) (jsOrWeeks sem))).2) := by
          simp [gerarAgendamento, hfind, hdF]
        have hframe := materializeLoop_frame id now1
          (candidateDates aula.data_inicio (diasOf db id) (jsOrWeeks sem)) db
        have key : ∀ dbA : DB, dbA.configuradas = db.configuradas →
            dbA.diasSemana = db.diasSemana →
            (∀ c ∈ candidateDates aula.data_inicio (diasOf db id) (jsOrWeeks sem),
              existsAgendamento dbA id c = true) →
            gerarAgendamento dbA id sem now2 = (dbA, .ok []) := by
          intro dbA hc hd hexA
          have hfindA : dbA.configuradas.find? (fun ac => ac.id == id) = some aula := by
            rw [hc]
            exact hfind
          have hdiasA : diasOf dbA id = diasOf db id := by
            unfold diasOf
            rw [hd]
          have hdFA : (diasOf dbA id).isEmpty = false := by
            rw [hdiasA]
            exact hdF
          simp only [gerarAgendamento, hfindA, hdiasA, hdFA, Bool.false_eq_true,
            if_false]
          rw [materializeLoop_all_exists id now2 _ _ hexA]
          simp [hdF]
        have h2 : gerarAgendamento (gerarAgendamento db id sem now1).1 id sem now2 =
            ((gerarAgendamento db id sem now1).1, .ok []) := by
          refine key _ (by rw [h1]; exact hframe.2.1) (by rw [h1]; exact hframe.2.2.1)
            (fun c hc => ?_)
          rw [h1]
          exact (existsAgendamento_materializeLoop id now1 _ db c).mpr (Or.inl hc)
        refine ⟨by rw [h2], fun l hl => by rw [h2]⟩
  · intro db id N1 N2 now1 now2 aula hfind hb hnd hne hclean hN1 hle
    have hdF : (diasOf db id).isEmpty = false := by
      rcases hdd : diasOf db id with _ | ⟨a, l⟩
      · exact absurd hdd hne
      · rfl
    have hw1 : jsOrWeeks (some N1) = N1 := by
      simp only [jsOrWeeks]
      rw [if_neg (by omega)]
    have hw2 : jsOrWeeks (some N2) = N2 := by
      simp only [jsOrWeeks]
      rw [if_neg (by omega)]
    have hnd1 : (candidateDates aula.data_inicio (diasOf db id) N1).Nodup :=
      nodup_candidateDates N1 hb hnd
    have hnd2 : (candidateDates aula.data_inicio (diasOf db id) N2).Nodup :=
      nodup_candidateDates N2 hb hnd
    have h1 : gerarAgendamento db id (some N1) now1 =
        ((materializeLoop id now1 db
            (candidateDates aula.data_inicio (diasOf db id) N1)).1,
         .ok (materializeLoop id now1 db
            (candidateDates aula.data_inicio (diasOf db id) N1)).2) := by
      simp [gerarAgendamento, hfind, hdF, hw1]
    have hl1 : (materializeLoop id now1 db
        (candidateDates aula.data_inicio (diasOf db id) N1)).2.map Prod.snd =
        candidateDates aula.data_inicio (diasOf db id) N1 := by
      rw [materializeLoop_created id now1 _ db hnd1]
      exact List.filter_eq_self.mpr (fun a _ => by simp [hclean a])
    refine ⟨⟨_, by rw [h1], hl1⟩, ?_⟩
    have hframe := materializeLoop_frame id now1
      (candidateDates aula.data_inicio (diasOf db id) N1) db
    have hE1 : ∀ x, existsAgendamento (gerarAgendamento db id (some N1) now1).1 id x =
        true ↔ x ∈ candidateDates aula.data_inicio (diasOf db id) N1 := by
      intro x
      rw [h1, existsAgendamento_materializeLoop]
      simp [hclean x]
    have key2 : ∀ dbA : DB, dbA.configuradas = db.configuradas →
        dbA.diasSemana = db.diasSemana →
        gerarAgendamento dbA id (some N2) now2 =
          ((materializeLoop id now2 dbA
              (candidateDates aula.data_inicio (diasOf db id) N2)).1,
           .ok (materializeLoop id now2 dbA
              (candidateDates aula.data_inicio (diasOf db id) N2)).2) := by
      intro dbA hc hd
      have hfindA : dbA.configuradas.find? (fun ac => ac.id == id) = some aula := by
        rw [hc]
        exact hfind
      have hdiasA : diasOf dbA id = diasOf db id := by
        unfold diasOf
        rw [hd]
      have hdFA : (diasOf dbA id).isEmpty = false := by
        rw [hdiasA]
        exact hdF
      simp [gerarAgendamento, hfindA, hdiasA, hdFA, hw2, hne]
    have h2 : gerarAgendamento (gerarAgendamento db id (some N1) now1).1 id
        (some N2) now2 =
        ((materializeLoop id now2 (gerarAgendamento db id (some N1) now1).1
            (candidateDates aula.data_inicio (diasOf db id) N2)).1,
         .ok (materializeLoop id now2 (gerarAgendamento db id (some N1) now1).1
            (candidateDates aula.data_inicio (diasOf db id) N2)).2) :=
      key2 _ (by rw [h1]; exact hframe.2.1) (by rw [h1]; exact hframe.2.2.1)
    have hsplit := candidateDates_split aula.data_inicio (diasOf db id) N1 N2 hle
    have hdisj : (candidateDates aula.data_inicio (diasOf db id) N1).Disjoint
        (((List.range (N2 - N1)).map (fun j => N1 + j)).flatMap
          (fun k => (diasOf db id).map
            (fun w => candidateDate aula.data_inicio w k))) := by
      have := hnd2
      rw [hsplit] at this
      exact (List.nodup_append.mp this).2.2
    have hcreated : (materializeLoop id now2 (gerarAgendamento db id (some N1) now1).1
        (candidateDates aula.data_inicio (diasOf db id) N2)).2.map Prod.snd =
        ((List.range (N2 - N1)).map (fun j => N1 + j)).flatMap
          (fun k => (diasOf db id).map
            (fun w => candidateDate aula.data_inicio w k)) := by
      rw [materializeLoop_created id now2 _ _ hnd2, hsplit, List.filter_append]
      have hfn : (candidateDates aula.data_inicio (diasOf db id) N1).filter
          (fun c => !existsAgendamento (gerarAgendamento db id (some N1) now1).1 id c) =
          [] := by
        refine List.filter_eq_nil_iff.mpr (fun a ha h => ?_)
        rw [Bool.not_eq_true'] at h
        rw [Bool.eq_false_iff] at h
        exact h ((hE1 a).mpr ha)
      have hfs : (((List.range (N2 - N1)).map (fun j => N1 + j)).flatMap
          (fun k => (diasOf db id).map
            (fun w => candidateDate aula.data_inicio w k))).filter
          (fun c => !existsAgendamento (gerarAgendamento db id (some N1) now1).1 id c) =
          ((List.range (N2 - N1)).map (fun j => N1 + j)).flatMap
            (fun k => (diasOf db id).map
              (fun w => candidateDate aula.data_inicio w k)) := by
        refine List.filter_eq_self.mpr (fun a ha => ?_)
        rw [Bool.not_eq_true']
        rw [Bool.eq_false_iff]
        intro hmem
        exact hdisj ((hE1 a).mp hmem) ha
      rw [hfn, hfs, List.nil_append]
    exact ⟨_, by rw [h2], hcreated⟩

/-- A clean database with one configured lesson (start day 1) on weekdays
Monday and Wednesday and no occurrences yet. -/
def dbW2 : DB :=
  ⟨[⟨1, "Ana", "piano"⟩], [⟨1, "piano", "manhã", 1, 1⟩], [⟨1, 1, 1⟩, ⟨2, 1, 3⟩],
   [], [], 2, 3, 1, 1⟩

/-- Witness for C2 at `dbW2`: part (a) with 2 weeks, part (b) with week
counts 1 and then 2. -/
theorem C2_idempotent_generation_witness :
    ((gerarAgendamento (gerarAgendamento dbW2 1 (some 2) 0).1 1 (some 2) 5).1 =
        (gerarAgendamento dbW2 1 (some 2) 0).1 ∧
      (gerarAgendamento (gerarAgendamento dbW2 1 (some 2) 0).1 1 (some 2) 5).2 =
        .ok []) ∧
    ((∃ l1, (gerarAgendamento dbW2 1 (some 1) 0).2 = .ok l1 ∧
        l1.map Prod.snd = candidateDates 1 (diasOf dbW2 1) 1) ∧
      (∃ l2, (gerarAgendamento (gerarAgendamento dbW2 1 (some 1) 0).1 1
          (some 2) 5).2 = .ok l2 ∧
        l2.map Prod.snd =
          ((List.range (2 - 1)).map (fun j => 1 + j)).flatMap
            (fun k => (diasOf dbW2 1).map (fun w => candidateDate 1 w k)))) :=
  ⟨⟨(C2_idempotent_generation.1 dbW2 1 (some 2) 0 5).1,
    (C2_idempotent_generation.1 dbW2 1 (some 2) 0 5).2
      [(1, 1), (2, 3), (3, 8), (4, 10)] (by rfl)⟩,
   C2_idempotent_generation.2 dbW2 1 1 2 0 5 ⟨1, "piano", "manhã", 1, 1⟩ (by rfl)
     (by decide) (by decide) (by decide) (fun x => rfl) (by decide) (by decide)⟩

/-! ### Lesson configuration cleanup (C9) -/

theorem insertDias_invalid (aulaId : Nat) (diaFails : Nat → Bool) (bad : Int)
    (rest : List Int) (hbad : bad < 0 ∨ bad > 6) :
    ∀ (pre : List Int) (k : Nat) (db : DB),
      (∀ v ∈ pre, 0 ≤ v ∧ v ≤ 6) →
      (∀ j, j < pre.length → diaFails (k + j) = false) →
      (insertDias aulaId diaFails db (pre ++ bad :: rest) k).2 =
        .error (.invalidInput
          "Dia da semana deve estar entre 0 (domingo) e 6 (sábado)") ∧
      (insertDias aulaId diaFails db (pre ++ bad :: rest) k).1.configuradas =
        db.configuradas.filter (fun ac => ac.id != aulaId) ∧
      (insertDias aulaId diaFails db (pre ++ bad :: rest) k).1.diasSemana =
        db.diasSemana.filter (fun dr => dr.aula_id != aulaId) ∧
      (insertDias aulaId diaFails db (pre ++ bad :: rest) k).1.agendadas =
        db.agendadas.filter (fun a => a.aula_configurada_id != aulaId) ∧
      (insertDias aulaId diaFails db (pre ++ bad :: rest) k).1.reagendamentos =
        db.reagendamentos.filter
          (fun ar => !((db.agendadas.filter
            (fun a => a.aula_configurada_id == aulaId)).any
              (fun a => a.id == ar.aula_agendada_id))) := by
  intro pre
  induction pre with
  | nil =>
    intro k db hpre hfails
    rw [List.nil_append]
    rw [show insertDias aulaId diaFails db (bad :: rest) k =
        (deleteConfiguradaCascade db aulaId,
         .error (.invalidInput
           "Dia da semana deve estar entre 0 (domingo) e 6 (sábado)")) from by
      simp only [insertDias, if_pos hbad]]
    exact ⟨rfl, rfl, rfl, rfl, rfl⟩
  | cons v pre' ih =>
    intro k db hpre hfails
    have hv := hpre v (List.mem_cons_self v pre')
    have hvr : ¬(v < 0 ∨ v > 6) := by omega
    have hf0 : diaFails k = false := by
      have h := hfails 0 (by simp)
      simpa using h
    rw [List.cons_append]
    rw [show insertDias aulaId diaFails db (v :: (pre' ++ bad :: rest)) k =
        insertDias aulaId diaFails (insertDiaRow db aulaId v)
          (pre' ++ bad :: rest) (k + 1) from by
      simp only [insertDias, if_neg hvr, hf0, Bool.false_eq_true, if_false]]
    have ihh := ih (k + 1) (insertDiaRow db aulaId v)
      (fun u hu => hpre u (List.mem_cons_of_mem _ hu))
      (fun j hj => by
        have h := hfails (j + 1) (by simp; omega)
        rw [show k + 1 + j = k + (j + 1) from by omega]
        exact h)
    refine ⟨ihh.1, by rw [ihh.2.1]; rfl, ?_, by rw [ihh.2.2.2.1]; rfl,
      by rw [ihh.2.2.2.2]; rfl⟩
    rw [ihh.2.2.1]
    show (db.diasSemana ++ [(⟨db.nextDiaId, aulaId, v⟩ : DiaSemana)]).filter
        (fun dr => dr.aula_id != aulaId) =
      db.diasSemana.filter (fun dr => dr.aula_id != aulaId)
    rw [List.filter_append]
    simp

theorem insertDias_fail (aulaId : Nat) (diaFails : Nat → Bool) (d1 : Int)
    (rest : List Int) (hd1 : 0 ≤ d1 ∧ d1 ≤ 6) :
    ∀ (pre : List Int) (k : Nat) (db : DB),
      (∀ v ∈ pre, 0 ≤ v ∧ v ≤ 6) →
      (∀ j, j < pre.length → diaFails (k + j) = false) →
      diaFails (k + pre.length) = true →
      (insertDias aulaId diaFails db (pre ++ d1 :: rest) k).2 =
        .error (.persistence "insert failed") ∧
      (insertDias aulaId diaFails db (pre ++ d1 :: rest) k).1.configuradas =
        db.configuradas := by
  intro pre
  induction pre with
  | nil =>
    intro k db hpre hfails hfk
    have hd1r : ¬(d1 < 0 ∨ d1 > 6) := by omega
    have hfk' : diaFails k = true := by simpa using hfk
    rw [List.nil_append]
    rw [show insertDias aulaId diaFails db (d1 :: rest) k =
        (db, .error (.persistence "insert failed")) from by
      simp only [insertDias, if_neg hd1r, hfk', if_true]]
    exact ⟨rfl, rfl⟩
  | cons v pre' ih =>
    intro k db hpre hfails hfk
    have hv := hpre v (List.mem_cons_self v pre')
    have hvr : ¬(v < 0 ∨ v > 6) := by omega
    have hf0 : diaFails k = false := by
      have h := hfails 0 (by simp)
      simpa using h
    rw [List.cons_append]
    rw [show insertDias aulaId diaFails db (v :: (pre' ++ d1 :: rest)) k =
        insertDias aulaId diaFails (insertDiaRow db aulaId v)
          (pre' ++ d1 :: rest) (k + 1) from by
      simp only [insertDias, if_neg hvr, hf0, Bool.false_eq_true, if_false]]
    have ihh := ih (k + 1) (insertDiaRow db aulaId v)
      (fun u hu => hpre u (List.mem_cons_of_mem _ hu))
      (fun j hj => by
        have h := hfails (j + 1) (by simp; omega)
        rw [show k + 1 + j = k + (j + 1) from by omega]
        exact h)
      (by
        have h : k + (v :: pre').length = k + 1 + pre'.length := by simp; omega
        rw [← h]
        exact hfk)
    exact ⟨ihh.1, by rw [ihh.2]; rfl⟩

/-- C9 (amended): during lesson configuration, the compensating deletion of
the just-created configured lesson happens only when a weekday value is out
of range — that error path removes the new lesson (and, by cascade, its
weekday rows), restoring every table; a store-level persistence failure of
a weekday `INSERT`, by contrast, surfaces the error with NO compensating
deletion: the just-created configured lesson row remains in the table. -/
theorem C9_cleanup (db : DB) (instrumento turno : String) (pid : Nat) (d0 : Int)
    (diaFails : Nat → Bool) (now : Int) (prof : Professor)
    (hinstr : instrumento ≠ "") (hturno : turnoValido turno = true) (hpid : pid ≠ 0)
    (hprof : db.professores.find? (fun p => p.id == pid) = some prof)
    (hfreshC : ∀ ac ∈ db.configuradas, ac.id ≠ db.nextConfigId)
    (hfreshD : ∀ r ∈ db.diasSemana, r.aula_id ≠ db.nextConfigId)
    (hfreshA : ∀ a ∈ db.agendadas, a.aula_configurada_id ≠ db.nextConfigId) :
    (∀ (pre : List Int) (bad : Int) (rest : List Int),
      (∀ v ∈ pre, 0 ≤ v ∧ v ≤ 6) →
      (∀ j, j < pre.length → diaFails j = false) →
      (bad < 0 ∨ bad > 6) →
      (configurar db instrumento turno (some pid) (some d0)
          (some (pre ++ bad :: rest)) diaFails now).2 =
        .error (.invalidInput
          "Dia da semana deve estar entre 0 (domingo) e 6 (sábado)") ∧
      (configurar db instrumento turno (some pid) (some d0)
          (some (pre ++ bad :: rest)) diaFails now).1.configuradas =
        db.configuradas ∧
      (configurar db instrumento turno (some pid) (some d0)
          (some (pre ++ bad :: rest)) diaFails now).1.diasSemana = db.diasSemana ∧
      (configurar db instrumento turno (some pid) (some d0)
          (some (pre ++ bad :: rest)) diaFails now).1.agendadas = db.agendadas ∧
      (configurar db instrumento turno (some pid) (some d0)
          (some (pre ++ bad :: rest)) diaFails now).1.reagendamentos =
        db.reagendamentos) ∧
    (∀ (pre : List Int) (d1 : Int) (rest : List Int),
      (∀ v ∈ pre, 0 ≤ v ∧ v ≤ 6) →
      (∀ j, j < pre.length → diaFails j = false) →
      (0 ≤ d1 ∧ d1 ≤ 6) →
      diaFails pre.length = true →
      (configurar db instrumento turno (some pid) (some d0)
          (some (pre ++ d1 :: rest)) diaFails now).2 =
        .error (.persistence "insert failed") ∧
      (⟨db.nextConfigId, instrumento, turno, pid, d0⟩ : Configurada) ∈
        (configurar db instrumento turno (some pid) (some d0)
            (some (pre ++ d1 :: rest)) diaFails now).1.configuradas) := by
  have hturno' : turno ≠ "" := by
    intro h
    rw [h] at hturno
    cases hturno
  constructor
  · intro pre bad rest hpre hfails hbad
    have hvalid : ¬(instrumento = "" ∨ turno = "" ∨ pid = 0 ∨
        (pre ++ bad :: rest) = []) := by
      push_neg
      exact ⟨hinstr, hturno', hpid, by simp⟩
    have hA := insertDias_invalid db.nextConfigId diaFails bad rest hbad pre 0
      (insertConfigurada db instrumento turno pid d0)
      hpre (fun j hj => by simpa using hfails j hj)
    have hconf : configurar db instrumento turno (some pid) (some d0)
        (some (pre ++ bad :: rest)) diaFails now =
        ((insertDias db.nextConfigId diaFails
            (insertConfigurada db instrumento turno pid d0)
            (pre ++ bad :: rest) 0).1,
         .error (.invalidInput
           "Dia da semana deve estar entre 0 (domingo) e 6 (sábado)")) := by
      simp only [configurar]
      rw [if_neg hvalid, if_pos hturno, hprof]
      simp only []
      rw [hA.1]
    rw [hconf]
    refine ⟨rfl, ?_, ?_, ?_, ?_⟩
    · rw [hA.2.1]
      show (db.configuradas ++
          [(⟨db.nextConfigId, instrumento, turno, pid, d0⟩ : Configurada)]).filter
          (fun ac => ac.id != db.nextConfigId) = db.configuradas
      rw [List.filter_append]
      have h1 : db.configuradas.filter (fun ac => ac.id != db.nextConfigId) =
          db.configuradas :=
        List.filter_eq_self.mpr (fun ac hac => by
          simpa using hfreshC ac hac)
      rw [h1]
      simp
    · rw [hA.2.2.1]
      show db.diasSemana.filter (fun dr => dr.aula_id != db.nextConfigId) =
        db.diasSemana
      exact List.filter_eq_self.mpr (fun r hr => by simpa using hfreshD r hr)
    · rw [hA.2.2.2.1]
      show db.agendadas.filter
          (fun a => a.aula_configurada_id != db.nextConfigId) = db.agendadas
      exact List.filter_eq_self.mpr (fun a ha => by simpa using hfreshA a ha)
    · rw [hA.2.2.2.2]
      show db.reagendamentos.filter
          (fun ar => !((db.agendadas.filter
            (fun a => a.aula_configurada_id == db.nextConfigId)).any
              (fun a => a.id == ar.aula_agendada_id))) = db.reagendamentos
      have hnil : db.agendadas.filter
          (fun a => a.aula_configurada_id == db.nextConfigId) = [] :=
        List.filter_eq_nil_iff.mpr (fun a ha => by simpa using hfreshA a ha)
      rw [hnil]
      simp
  · intro pre d1 rest hpre hfails hd1 hfk
    have hvalid : ¬(instrumento = "" ∨ turno = "" ∨ pid = 0 ∨
        (pre ++ d1 :: rest) = []) := by
      push_neg
      exact ⟨hinstr, hturno', hpid, by simp⟩
    have hB := insertDias_fail db.nextConfigId diaFails d1 rest hd1 pre 0
      (insertConfigurada db instrumento turno pid d0)
      hpre (fun j hj => by simpa using hfails j hj) (by simpa using hfk)
    have hconf : configurar db instrumento turno (some pid) (some d0)
        (some (pre ++ d1 :: rest)) diaFails now =
        ((insertDias db.nextConfigId diaFails
            (insertConfigurada db instrumento turno pid d0)
            (pre ++ d1 :: rest) 0).1,
         .error (.persistence "insert failed")) := by
      simp only [configurar]
      rw [if_neg hvalid, if_pos hturno, hprof]
      simp only []
      rw [hB.1]
    rw [hconf]
    refine ⟨rfl, ?_⟩
    rw [hB.2]
    show (⟨db.nextConfigId, instrumento, turno, pid, d0⟩ : Configurada) ∈
      db.configuradas ++ [⟨db.nextConfigId, instrumento, turno, pid, d0⟩]
    exact List.mem_append_right _ (List.mem_singleton.mpr rfl)

/-- One teacher and nothing else: the state right before a configuration
call. -/
def dbC9 : DB := ⟨[⟨1, "Ana", "piano"⟩], [], [], [], [], 1, 1, 1, 1⟩

/-- C9 counterexample: when the weekday `INSERT` itself fails (here: on its
first iteration), `configurar` surfaces a persistence error but performs no
compensating deletion — the just-created configured lesson row is still in
the table afterwards, refuting "no configured-lesson row remains after a
failed configuration". -/
theorem C9_counterexample :
    (configurar dbC9 "piano" "manhã" (some 1) (some 1) (some [1])
        (fun _ => true) 0).2 = .error (.persistence "insert failed") ∧
    (⟨1, "piano", "manhã", 1, 1⟩ : Configurada) ∈
      (configurar dbC9 "piano" "manhã" (some 1) (some 1) (some [1])
          (fun _ => true) 0).1.configuradas ∧
    (configurar dbC9 "piano" "manhã" (some 1) (some 1) (some [1])
        (fun _ => true) 0).1.configuradas ≠ [] := by
  refine ⟨rfl, by decide, by decide⟩

/-- Witness for C9 (amended) at `dbC9`: part (i) with weekday list `[9]`
and a never-failing store, part (ii) with weekday list `[1]` and a store
failing on the first insert. -/
theorem C9_cleanup_witness :
    ((configurar dbC9 "piano" "manhã" (some 1) (some 1) (some [9])
        (fun _ => false) 0).2 =
      .error (.invalidInput
        "Dia da semana deve estar entre 0 (domingo) e 6 (sábado)") ∧
     (configurar dbC9 "piano" "manhã" (some 1) (some 1) (some [9])
        (fun _ => false) 0).1.configuradas = dbC9.configuradas ∧
     (configurar dbC9 "piano" "manhã" (some 1) (some 1) (some [9])
        (fun _ => false) 0).1.diasSemana = dbC9.diasSemana ∧
     (configurar dbC9 "piano" "manhã" (some 1) (some 1) (some [9])
        (fun _ => false) 0).1.agendadas = dbC9.agendadas ∧
     (configurar dbC9 "piano" "manhã" (some 1) (some 1) (some [9])
        (fun _ => false) 0).1.reagendamentos = dbC9.reagendamentos) ∧
    ((configurar dbC9 "piano" "manhã" (some 1) (some 1) (some [1])
        (fun _ => true) 0).2 = .error (.persistence "insert failed") ∧
     (⟨dbC9.nextConfigId, "piano", "manhã", 1, 1⟩ : Configurada) ∈
       (configurar dbC9 "piano" "manhã" (some 1) (some 1) (some [1])
           (fun _ => true) 0).1.configuradas) :=
  ⟨(C9_cleanup dbC9 "piano" "manhã" 1 1 (fun _ => false) 0 ⟨1, "Ana", "piano"⟩
      (by decide) (by decide) (by decide) (by rfl) (by decide) (by decide)
      (by decide)).1
    [] 9 [] (by decide) (fun j hj => rfl) (Or.inr (by decide)),
   (C9_cleanup dbC9 "piano" "manhã" 1 1 (fun _ => true) 0 ⟨1, "Ana", "piano"⟩
      (by decide) (by decide) (by decide) (by rfl) (by decide) (by decide)
      (by decide)).2
    [] 1 [] (by decide) (fun j hj => absurd hj (Nat.not_lt_zero j)) (by decide)
    (by rfl)⟩

end MMSys
